import Mathlib

/- Shallow embedding of the postgresql-json-jsonb-benchmark scripts
   (src/benchmark_runner.py, src/mysql_benchmark_runner.py,
   src/compare_results.py).  Python numbers are modelled as rationals,
   dictionaries as association lists, exceptions as explicit outcome
   values, and the process environment as an association list. -/

/-- A Python value as it flows through the comparator arithmetic: a number
or a string.  The comparator only ever passes numbers or the sentinel
string "N/A" to format_ratio. -/
inductive PyVal where
  | num (q : ℚ)
  | str (s : String)
deriving DecidableEq, Repr

/-- Python truthiness for the values above: the number 0 and the empty
string are falsy (the `not baseline` test in format_ratio). -/
def PyVal.truthy : PyVal → Bool
  | .num q => q != 0
  | .str s => s != ""

/-- The integer nearest to 100*q, i.e. the rounding step of Python's
"%.2f" formatting.  Python rounds exact halves of the underlying binary
float to even; no claim exercises an exact half, so `round` is used. -/
def round2int (q : ℚ) : ℤ := round (q * 100)

/-- Left-pad the fractional part of a two-decimal ratio to two digits. -/
def pad2 (n : ℤ) : String := if n < 10 then "0" ++ toString n else toString n

/-- The string produced by the Python format expression f-string with
".2f" plus the trailing "x", for a nonnegative rational. -/
def fmt2x (q : ℚ) : String :=
  toString (round2int q / 100) ++ "." ++ pad2 (round2int q % 100) ++ "x"

/-- compare_results.py, format_ratio (lines 27-34).  The lower_is_better
parameter does not influence the returned string and is omitted.  `none`
models the TypeError Python would raise when dividing with a non-numeric
operand that escapes every guard. -/
def format_ratio (value baseline : PyVal) : Option String :=
  if ¬ baseline.truthy ∨ baseline = .num 0 ∨ value = .str "N/A" ∨ baseline = .str "N/A" then
    some "N/A"
  else
    match value, baseline with
    | .num v, .num b => some (fmt2x (v / b))
    | _, _ => none

/-- format_ratio as the total string function it is at the call sites of
compare_benchmarks, where the dividing branch only ever sees numbers; the
default is never reached there. -/
def format_ratioS (value baseline : PyVal) : String :=
  (format_ratio value baseline).getD "<TypeError>"

/- ----------------------------------------------------------------------
   Comparator input documents (compare_results.py).

   A results file is modelled by the fields compare_benchmarks actually
   reads.  `none` models an absent key (the `in` tests and .get defaults);
   present metric fields are restricted to numbers, which is the shape the
   runners produce. -/

/-- insert_performance section as read by the comparator. -/
structure CmpInsertPerf where
  record_count : Option ℚ
  json_time_seconds : Option ℚ
  jsonb_time_seconds : Option ℚ
  json_records_per_second : Option ℚ
  jsonb_records_per_second : Option ℚ
deriving DecidableEq, Repr

/-- one storage_sizes entry as read by the comparator. -/
structure CmpStorageEntry where
  total_size_mb : Option ℚ
deriving DecidableEq, Repr

/-- storage_sizes section as read by the comparator. -/
structure CmpStorage where
  json : Option CmpStorageEntry
  jsonb : Option CmpStorageEntry
deriving DecidableEq, Repr

/-- one query_performance entry as read by the comparator. -/
structure CmpQueryEntry where
  json_time_ms : Option ℚ
  jsonb_time_ms : Option ℚ
deriving DecidableEq, Repr

/-- update_performance section as read by the comparator. -/
structure CmpUpdatePerf where
  json_time_ms : Option ℚ
  jsonb_time_ms : Option ℚ
deriving DecidableEq, Repr

/-- A loaded results document, restricted to the keys the comparator
reads.  The documents written by the runners are never empty, so a loaded
document is always truthy in the Python sense. -/
structure ResultsDoc where
  insert_performance : Option CmpInsertPerf
  storage_sizes : Option CmpStorage
  query_performance : Option (List (String × CmpQueryEntry))
  update_performance : Option CmpUpdatePerf
deriving DecidableEq, Repr

/-- dict.get with default 'N/A' (query rows, compare_results.py lines
216-217 and 226). -/
def getNA (o : Option ℚ) : PyVal :=
  match o with
  | some q => .num q
  | none => .str "N/A"

/-- Entry of the insert_performance comparison dict.  `ratio = none`
means the entry carries no 'ratio' key at all. -/
structure InsertEntry where
  time : ℚ
  rps : ℚ
  ratio : Option String
deriving DecidableEq, Repr

/-- Entry of the storage_sizes comparison dict. -/
structure StorageEntry where
  size_mb : ℚ
  ratio : Option String
deriving DecidableEq, Repr

/-- Entry of one query row of the comparison dict; here every entry
carries a 'ratio' key. -/
structure QueryEntry where
  time_ms : PyVal
  ratio : String
deriving DecidableEq, Repr

/-- Entry of the update_performance comparison dict. -/
structure UpdateEntry where
  time_ms : ℚ
  ratio : Option String
deriving DecidableEq, Repr

/-- mysql_time baseline, compare_results.py lines 86-92. -/
def mysql_insert_time (mysql : Option ResultsDoc) : ℚ :=
  match mysql with
  | some d =>
    match d.insert_performance with
    | some ip => ip.json_time_seconds.getD 0
    | none => 0
  | none => 0

/-- mysql_rps baseline, compare_results.py lines 87-92. -/
def mysql_insert_rps (mysql : Option ResultsDoc) : ℚ :=
  match mysql with
  | some d =>
    match d.insert_performance with
    | some ip => ip.json_records_per_second.getD 0
    | none => 0
  | none => 0

/-- insert_data as assembled in compare_results.py lines 83-122 (MySQL
baseline entry first, then the PostgreSQL entries). -/
def buildInsertData (pg mysql : Option ResultsDoc) : List (String × InsertEntry) :=
  (match mysql with
   | some d =>
     match d.insert_performance with
     | some _ => [("mysql_json", ⟨mysql_insert_time mysql, mysql_insert_rps mysql, none⟩)]
     | none => []
   | none => []) ++
  (match pg with
   | some d =>
     match d.insert_performance with
     | some ip =>
       [("postgresql_json",
         ⟨ip.json_time_seconds.getD 0, ip.json_records_per_second.getD 0,
          some (format_ratioS (.num (ip.json_time_seconds.getD 0)) (.num (mysql_insert_time mysql)))⟩),
        ("postgresql_jsonb",
         ⟨ip.jsonb_time_seconds.getD 0, ip.jsonb_records_per_second.getD 0,
          some (format_ratioS (.num (ip.jsonb_time_seconds.getD 0)) (.num (mysql_insert_time mysql)))⟩)]
     | none => []
   | none => [])

/-- mysql_mb baseline, compare_results.py lines 143-148. -/
def mysql_storage_mb (mysql : Option ResultsDoc) : ℚ :=
  match mysql with
  | some d =>
    match d.storage_sizes with
    | some st =>
      match st.json with
      | some e => e.total_size_mb.getD 0
      | none => 0
    | none => 0
  | none => 0

/-- storage_data as assembled in compare_results.py lines 140-164. -/
def buildStorageData (pg mysql : Option ResultsDoc) : List (String × StorageEntry) :=
  (match mysql with
   | some d =>
     match d.storage_sizes with
     | some st =>
       match st.json with
       | some e => [("mysql_json", ⟨e.total_size_mb.getD 0, none⟩)]
       | none => []
     | none => []
   | none => []) ++
  (match pg with
   | some d =>
     match d.storage_sizes with
     | some st =>
       (match st.json with
        | some e =>
          [("postgresql_json",
            ⟨e.total_size_mb.getD 0,
             some (format_ratioS (.num (e.total_size_mb.getD 0)) (.num (mysql_storage_mb mysql)))⟩)]
        | none => []) ++
       (match st.jsonb with
        | some e =>
          [("postgresql_jsonb",
            ⟨e.total_size_mb.getD 0,
             some (format_ratioS (.num (e.total_size_mb.getD 0)) (.num (mysql_storage_mb mysql)))⟩)]
        | none => [])
     | none => []
   | none => [])

/-- The five fixed query categories, compare_results.py lines 182-188;
the runners produce query_performance dicts with the same keys in the
same order. -/
def query_types : List String :=
  ["simple_key_extraction", "nested_field_access", "array_operations",
   "complex_conditions", "path_queries"]

/-- mysql_query_baseline lookup, compare_results.py lines 193-197 and
212 (0 when MySQL results or the query entry are missing). -/
def mysql_query_baseline (mysql : Option ResultsDoc) (qt : String) : ℚ :=
  match mysql with
  | some d =>
    match d.query_performance with
    | some qp => (((qp.lookup qt).getD ⟨none, none⟩).json_time_ms).getD 0
    | none => 0
  | none => 0

/-- One row of query_data, compare_results.py lines 208-230 (PostgreSQL
entries first, then the MySQL entry that carries the literal ratio
string). -/
def buildQueryRow (pg mysql : Option ResultsDoc) (qt : String) : List (String × QueryEntry) :=
  (match pg with
   | some d =>
     match d.query_performance with
     | some qp =>
       [("postgresql_json",
         ⟨getNA ((qp.lookup qt).getD ⟨none, none⟩).json_time_ms,
          format_ratioS (getNA ((qp.lookup qt).getD ⟨none, none⟩).json_time_ms)
            (.num (mysql_query_baseline mysql qt))⟩),
        ("postgresql_jsonb",
         ⟨getNA ((qp.lookup qt).getD ⟨none, none⟩).jsonb_time_ms,
          format_ratioS (getNA ((qp.lookup qt).getD ⟨none, none⟩).jsonb_time_ms)
            (.num (mysql_query_baseline mysql qt))⟩)]
     | none => []
   | none => []) ++
  (match mysql with
   | some d =>
     match d.query_performance with
     | some qp =>
       [("mysql_json", ⟨getNA ((qp.lookup qt).getD ⟨none, none⟩).json_time_ms, "1.00x"⟩)]
     | none => []
   | none => [])

/-- query_data over the five fixed categories, compare_results.py lines
190-232. -/
def buildQueryData (pg mysql : Option ResultsDoc) : List (String × List (String × QueryEntry)) :=
  query_types.map (fun qt => (qt, buildQueryRow pg mysql qt))

/-- mysql_update_ms baseline, compare_results.py lines 242-246. -/
def mysql_update_ms (mysql : Option ResultsDoc) : ℚ :=
  match mysql with
  | some d =>
    match d.update_performance with
    | some up => up.json_time_ms.getD 0
    | none => 0
  | none => 0

/-- update_data as assembled in compare_results.py lines 239-260. -/
def buildUpdateData (pg mysql : Option ResultsDoc) : List (String × UpdateEntry) :=
  (match mysql with
   | some d =>
     match d.update_performance with
     | some _ => [("mysql_json", ⟨mysql_update_ms mysql, none⟩)]
     | none => []
   | none => []) ++
  (match pg with
   | some d =>
     match d.update_performance with
     | some up =>
       [("postgresql_json",
         ⟨up.json_time_ms.getD 0,
          some (format_ratioS (.num (up.json_time_ms.getD 0)) (.num (mysql_update_ms mysql)))⟩),
        ("postgresql_jsonb",
         ⟨up.jsonb_time_ms.getD 0,
          some (format_ratioS (.num (up.jsonb_time_ms.getD 0)) (.num (mysql_update_ms mysql)))⟩)]
     | none => []
   | none => [])

/-- The comparison document built by compare_benchmarks (the 'comparison'
sub-dict; generated_at and sources only echo inputs and are omitted). -/
structure Comparison where
  insert_performance : List (String × InsertEntry)
  storage_sizes : List (String × StorageEntry)
  query_performance : List (String × List (String × QueryEntry))
  update_performance : List (String × UpdateEntry)
deriving DecidableEq, Repr

/-- What a call of compare_benchmarks returns and writes. -/
structure CompareOutcome where
  code : ℕ
  written : Option (String × Comparison)
deriving DecidableEq, Repr

/-- compare_results.py, compare_benchmarks (lines 41-291): early return 1
when neither file loaded, otherwise the comparison document is assembled
and, when an output path was given, written to it; return 0. -/
def compare_benchmarks (pg mysql : Option ResultsDoc) (output_file : Option String) :
    CompareOutcome :=
  if pg.isNone && mysql.isNone then
    ⟨1, none⟩
  else
    ⟨0, output_file.map
          (fun f => (f, ⟨buildInsertData pg mysql, buildStorageData pg mysql,
                         buildQueryData pg mysql, buildUpdateData pg mysql⟩))⟩

/-- Python min(items, key=f): the first element with minimal key. -/
def minBy {α : Type} (f : α → ℚ) : List α → Option α
  | [] => none
  | x :: xs => some (xs.foldl (fun acc y => if f y < f acc then y else acc) x)

/-- Fastest INSERT selection, compare_results.py line 129. -/
def fastest_insert (l : List (String × InsertEntry)) : Option (String × InsertEntry) :=
  minBy (fun x => x.2.time) l

/-- Smallest storage selection, compare_results.py line 170 (every entry
is a dict, so the isinstance branch always picks size_mb). -/
def smallest_storage (l : List (String × StorageEntry)) : Option (String × StorageEntry) :=
  minBy (fun x => x.2.size_mb) l

/-- Fastest UPDATE selection, compare_results.py line 266. -/
def fastest_update (l : List (String × UpdateEntry)) : Option (String × UpdateEntry) :=
  minBy (fun x => x.2.time_ms) l

/- ----------------------------------------------------------------------
   Runner control flow (benchmark_runner.py main, lines 367-428;
   mysql_benchmark_runner.py main, lines 313-369; identical shape). -/

/-- Outcome of one Python statement: normal completion or an exception
with its message. -/
inductive PyRes where
  | ok
  | exn (msg : String)
deriving DecidableEq, Repr

/-- Observable events of a runner execution. -/
inductive Ev where
  | connected
  | tablesSetup
  | insertRecorded
  | storageRecorded
  | queriesRecorded
  | updatesRecorded
  | reportWritten
  | errorPrinted (msg : String)
deriving DecidableEq, Repr

/-- The six try-block statements after connect, in program order
(benchmark_runner.py lines 408-413). -/
def bodySteps : List Ev := [.tablesSetup, .insertRecorded, .storageRecorded,
  .queriesRecorded, .updatesRecorded, .reportWritten]

/-- Run a sequence of statements: each completed statement emits its
event; the first exception aborts the rest. -/
def runBodyTrace : List (Ev × PyRes) → List Ev × PyRes
  | [] => ([], .ok)
  | (e, .ok) :: t => ((runBodyTrace t).1.cons e, (runBodyTrace t).2)
  | (_, .exn m) :: _ => ([], .exn m)

/-- What a runner invocation did. -/
structure RunOut where
  trace : List Ev
  exitCode : ℕ
  cleanupAttempted : Bool
  cleanupErrorLogged : Option String
deriving DecidableEq, Repr

/-- cleanup (benchmark_runner.py lines 327-339): its body may raise, the
exception is caught and logged, nothing propagates. -/
def cleanupLog : PyRes → Option String
  | .ok => none
  | .exn m => some m

/-- The try/except/finally of main (benchmark_runner.py lines 406-428).
A connect failure calls sys.exit(1) before a cursor exists, so the
finally clause runs a no-op cleanup.  After a successful connect the six
body steps run in order; an exception is printed and turns the return
value into 1; cleanup is always reached in the finally clause and its
own exception is swallowed by cleanupLog. -/
def runnerMain (connectR o1 o2 o3 o4 o5 o6 cleanupR : PyRes) : RunOut :=
  match connectR with
  | .exn _ => ⟨[], 1, false, none⟩
  | .ok =>
    match runBodyTrace (bodySteps.zip [o1, o2, o3, o4, o5, o6]) with
    | (tr, .ok) => ⟨.connected :: tr, 0, true, cleanupLog cleanupR⟩
    | (tr, .exn m) => ⟨.connected :: (tr ++ [.errorPrinted m]), 1, true, cleanupLog cleanupR⟩

/- ----------------------------------------------------------------------
   Results documents produced by the runners (for the report shape and
   the single write of generate_report). -/

/-- A JSON value, sufficient for the runner reports. -/
inductive J where
  | num (q : ℚ)
  | int (n : ℤ)
  | str (s : String)
  | bool (b : Bool)
  | null
  | obj (fields : List (String × J))

/-- Top-level keys of a JSON object. -/
def J.keys : J → List String
  | .obj l => l.map Prod.fst
  | _ => []

/-- Assign a key in an association list, Python-dict style: replace in
place when present, append otherwise. -/
def setKey : List (String × J) → String → J → List (String × J)
  | [], k, v => [(k, v)]
  | (k', v') :: t, k, v => if k' = k then (k, v) :: t else (k', v') :: setKey t k v

/-- d[k] = v on a JSON object. -/
def J.set : J → String → J → J
  | .obj l, k, v => .obj (setKey l k v)
  | j, _, _ => j

/-- d.get(k, default) on a JSON object. -/
def J.getD : J → String → J → J
  | .obj l, k, d => (l.lookup k).getD d
  | _, _, d => d

/-- Python round(x, 2) (ties modelled half away from zero, see
round2int). -/
def pyRound2 (q : ℚ) : ℚ := (round (q * 100) : ℚ) / 100

/-- Python round(x, 3). -/
def pyRound3 (q : ℚ) : ℚ := (round (q * 1000) : ℚ) / 1000

/-- Python int() on a number: truncation toward zero. -/
def pyInt (q : ℚ) : ℤ := if 0 ≤ q then ⌊q⌋ else -⌊-q⌋

/-- The hard-coded server_info string of both runners. -/
def serverInfoStr : String :=
  "Dell PowerEdge R450, 2x Intel Xeon Silver 4310 24/48 cores @ 2.1GHz"

/-- self.results as initialised in the runner constructors
(benchmark_runner.py lines 22-32, mysql_benchmark_runner.py lines 23-33);
versionKey is postgresql_version resp. mysql_version. -/
def initResults (ts versionKey : String) : J :=
  .obj [("test_info", .obj [("timestamp", .str ts), (versionKey, .null),
                            ("server_info", .str serverInfoStr)]),
        ("insert_performance", .obj []),
        ("storage_sizes", .obj []),
        ("query_performance", .obj []),
        ("update_performance", .obj [])]

/-- Measured quantities of one PostgreSQL run, as sampled by the wall
clock and the SQL result sets; query_* are indexed by query name. -/
structure PgMeas where
  timestamp : String
  version : String
  record_count : ℕ
  json_insert_time : ℚ
  jsonb_insert_time : ℚ
  json_total_size : ℤ
  json_data_size : ℤ
  jsonb_total_size : ℤ
  jsonb_data_size : ℤ
  query_json_time : String → ℚ
  query_jsonb_time : String → ℚ
  query_json_count : String → ℤ
  query_jsonb_count : String → ℤ
  json_update_time : ℚ
  jsonb_update_time : ℚ

/-- The query names and descriptions of benchmark_runner.py lines
193-225 (same names as query_types, in the same order). -/
def pgQueryDescriptions : List (String × String) :=
  [("simple_key_extraction", "Simple key extraction (data->>user_id)"),
   ("nested_field_access", "Nested field access"),
   ("array_operations", "Array operations"),
   ("complex_conditions", "Complex multi-field conditions"),
   ("path_queries", "Path-based queries")]

/-- insert_performance record, benchmark_runner.py lines 134-141. -/
def pgInsertSection (m : PgMeas) : J :=
  .obj [("record_count", .int m.record_count),
        ("json_time_seconds", .num (pyRound2 m.json_insert_time)),
        ("jsonb_time_seconds", .num (pyRound2 m.jsonb_insert_time)),
        ("json_records_per_second", .int (pyInt (m.record_count / m.json_insert_time))),
        ("jsonb_records_per_second", .int (pyInt (m.record_count / m.jsonb_insert_time))),
        ("performance_ratio", .num (pyRound2 (m.json_insert_time / m.jsonb_insert_time)))]

/-- One storage_sizes entry, benchmark_runner.py lines 172-177. -/
def sizeEntry (total data : ℤ) : J :=
  .obj [("total_size_bytes", .int total),
        ("data_size_bytes", .int data),
        ("total_size_mb", .num (pyRound2 (total / 1048576))),
        ("data_size_mb", .num (pyRound2 (data / 1048576)))]

/-- storage_sizes record, benchmark_runner.py lines 167-187 (the two
query rows json, jsonb in SQL order, then the size_ratio key). -/
def pgStorageSection (m : PgMeas) : J :=
  .obj [("json", sizeEntry m.json_total_size m.json_data_size),
        ("jsonb", sizeEntry m.jsonb_total_size m.jsonb_data_size),
        ("size_ratio", .num (pyRound3 (m.jsonb_total_size / m.json_total_size)))]

/-- query_performance record, benchmark_runner.py lines 227-256. -/
def pgQuerySection (m : PgMeas) : J :=
  .obj (pgQueryDescriptions.map (fun p =>
    (p.1, .obj [("description", .str p.2),
                ("json_time_ms", .num (pyRound2 (m.query_json_time p.1 * 1000))),
                ("jsonb_time_ms", .num (pyRound2 (m.query_jsonb_time p.1 * 1000))),
                ("json_result_count", .int (m.query_json_count p.1)),
                ("jsonb_result_count", .int (m.query_jsonb_count p.1)),
                ("performance_ratio",
                 .num (if 0 < m.query_jsonb_time p.1 then
                         pyRound2 (m.query_json_time p.1 / m.query_jsonb_time p.1)
                       else 0))])))

/-- update_performance record, benchmark_runner.py lines 282-287. -/
def pgUpdateSection (m : PgMeas) : J :=
  .obj [("records_updated", .int 1000),
        ("json_time_ms", .num (pyRound2 (m.json_update_time * 1000))),
        ("jsonb_time_ms", .num (pyRound2 (m.jsonb_update_time * 1000))),
        ("performance_ratio", .num (pyRound2 (m.json_update_time / m.jsonb_update_time)))]

/-- The PostgreSQL runner pipeline on its results dict: connect fills the
version, each benchmark step assigns its section, generate_report writes
the final document to the output file (the single element of the write
list).  Mirrors benchmark_runner.py lines 34-297 and 406-413. -/
def pgRun (m : PgMeas) (output_file : String) : J × List (String × J) :=
  let r0 := initResults m.timestamp "postgresql_version"
  let r1 := r0.set "test_info"
    ((r0.getD "test_info" (.obj [])).set "postgresql_version" (.str m.version))
  let r2 := r1.set "insert_performance" (pgInsertSection m)
  let r3 := r2.set "storage_sizes" (pgStorageSection m)
  let r4 := r3.set "query_performance" (pgQuerySection m)
  let r5 := r4.set "update_performance" (pgUpdateSection m)
  (r5, [(output_file, r5)])

/-- Measured quantities of one MySQL run. -/
structure MyMeas where
  timestamp : String
  version : String
  record_count : ℕ
  json_insert_time : ℚ
  total_size : ℤ
  data_size : ℤ
  query_time : String → ℚ
  query_count : String → ℤ
  json_update_time : ℚ

/-- The query names and descriptions of mysql_benchmark_runner.py lines
179-203 (same names as query_types, in the same order). -/
def myQueryDescriptions : List (String × String) :=
  [("simple_key_extraction", "Simple key extraction (JSON_EXTRACT)"),
   ("nested_field_access", "Nested field access"),
   ("array_operations", "Array operations"),
   ("complex_conditions", "Complex multi-field conditions"),
   ("path_queries", "Path-based queries with LIKE")]

/-- The MySQL runner pipeline, mysql_benchmark_runner.py lines 35-275 and
347-354; the information_schema row for the freshly created table is
always returned, so the storage branch is taken. -/
def myRun (m : MyMeas) (output_file : String) : J × List (String × J) :=
  let r0 := initResults m.timestamp "mysql_version"
  let r1 := r0.set "test_info"
    ((r0.getD "test_info" (.obj [])).set "mysql_version" (.str m.version))
  let r2 := r1.set "insert_performance"
    (.obj [("record_count", .int m.record_count),
           ("json_time_seconds", .num (pyRound2 m.json_insert_time)),
           ("json_records_per_second", .int (pyInt (m.record_count / m.json_insert_time)))])
  let r3 := r2.set "storage_sizes"
    (.obj [("json", sizeEntry m.total_size m.data_size)])
  let r4 := r3.set "query_performance"
    (.obj (myQueryDescriptions.map (fun p =>
      (p.1, .obj [("description", .str p.2),
                  ("json_time_ms", .num (pyRound2 (m.query_time p.1 * 1000))),
                  ("json_result_count", .int (m.query_count p.1))]))))
  let r5 := r4.set "update_performance"
    (.obj [("records_updated", .int 1000),
           ("json_time_ms", .num (pyRound2 (m.json_update_time * 1000)))])
  (r5, [(output_file, r5)])

/- ----------------------------------------------------------------------
   CLI / environment resolution (benchmark_runner.py lines 395-396,
   mysql_benchmark_runner.py lines 337-338). -/

/-- record_count = args.records or int(os.getenv('BENCHMARK_RECORDS',
1000000)): the flag is an optional integer, the environment variable an
optional already-parsed integer.  Python or falls through on the falsy
value 0. -/
def resolveRecords (flag : Option ℤ) (env : Option ℤ) : ℤ :=
  match flag with
  | some n => if n = 0 then env.getD 1000000 else n
  | none => env.getD 1000000

/-- output_file = args.output or os.getenv(ENVKEY, default): Python or
falls through on the falsy empty string. -/
def resolveOutput (flag : Option String) (env : Option String) (defaultName : String) : String :=
  match flag with
  | some s => if s = "" then env.getD defaultName else s
  | none => env.getD defaultName

/- ----------------------------------------------------------------------
   MySQL batched insert loop (mysql_benchmark_runner.py lines 103-122). -/

/-- The outer loop for batch_start in range(1, record_count+1, b) with
inner range(batch_start, min(batch_start+b, record_count+1)).
List.range' s n is [s, s+1, ..., s+n-1], i.e. range(s, s+n).  fuel bounds
the number of iterations; any fuel at least ceil((stop-start)/b) is
exact. -/
def insertBatches (fuel batch_start stop b : ℕ) : List ℕ :=
  match fuel with
  | 0 => []
  | fuel + 1 =>
    if batch_start < stop then
      List.range' batch_start (min (batch_start + b) stop - batch_start) ++
        insertBatches fuel (batch_start + b) stop b
    else []

/-- The indices generated and inserted by benchmark_inserts: batch size
10000, range 1..record_count. -/
def mysql_insert_indices (record_count : ℕ) : List ℕ :=
  insertBatches record_count 1 (record_count + 1) 10000

/- ----------------------------------------------------------------------
   load_env_file (benchmark_runner.py lines 351-365,
   mysql_benchmark_runner.py lines 298-310; identical code). -/

/-- The process environment: an association list from names to values;
lookup of a name yields its value, None when unset. -/
abbrev Env := List (String × String)

/-- Python str.strip() on a character list: drop whitespace at both
ends. -/
def pyStripL (l : List Char) : List Char :=
  ((l.dropWhile Char.isWhitespace).reverse.dropWhile Char.isWhitespace).reverse

/-- Python str.strip() on a string. -/
def pyStrip (s : String) : String := String.mk (pyStripL s.data)

/-- The guard of load_env_file: line (stripped) is non-blank, does not
start with a comment marker and contains a key-value separator. -/
def lineQualifies (line : String) : Bool :=
  let l := pyStripL line.data
  !l.isEmpty && !(l.headD ' ' == '#') && l.contains '='

/-- key, value = line.split('=', 1) on the stripped line, both stripped
again: the key is everything before the first separator, the value
everything after it. -/
def lineKeyVal (line : String) : String × String :=
  let l := pyStripL line.data
  (String.mk (pyStripL (l.takeWhile (fun c => c != '='))),
   String.mk (pyStripL ((l.dropWhile (fun c => c != '=')).drop 1)))

/-- One iteration of the load_env_file loop: a qualifying line sets its
key only when the key is not already in the environment. -/
def processLine (env : Env) (line : String) : Env :=
  if lineQualifies line then
    if (env.lookup (lineKeyVal line).1).isSome then env
    else ((lineKeyVal line).1, (lineKeyVal line).2) :: env
  else env

/-- load_env_file: the '/dev/null' short-circuit, the existence check
(file = none models a missing file) and the line loop. -/
def load_env_file (env_file : String) (file : Option (List String)) (env : Env) : Env :=
  if env_file = "/dev/null" then env
  else
    match file with
    | none => env
    | some lines => lines.foldl processLine env

/- ----------------------------------------------------------------------
   Documents used to state the comparator claims: a fully populated
   PostgreSQL results file and a fully populated MySQL results file with
   the given numeric metric fields. -/

/-- A PostgreSQL results document with every field the comparator reads
present and numeric. -/
def mkPgDoc (rc pjt pbt pjr pbr psj psb : ℚ) (fq gq : String → ℚ) (puj pub : ℚ) :
    ResultsDoc :=
  ⟨some ⟨some rc, some pjt, some pbt, some pjr, some pbr⟩,
   some ⟨some ⟨some psj⟩, some ⟨some psb⟩⟩,
   some (query_types.map (fun qt => (qt, ⟨some (fq qt), some (gq qt)⟩))),
   some ⟨some puj, some pub⟩⟩

/-- A MySQL results document with every json field the comparator reads
present and numeric (the jsonb fields never exist in MySQL results). -/
def mkMyDoc (rc mjt mjr msj : ℚ) (hq : String → ℚ) (mu : ℚ) : ResultsDoc :=
  ⟨some ⟨some rc, some mjt, none, some mjr, none⟩,
   some ⟨some ⟨some msj⟩, none⟩,
   some (query_types.map (fun qt => (qt, ⟨some (hq qt), none⟩))),
   some ⟨some mu, none⟩⟩

/- ----------------------------------------------------------------------
   Helper lemmas. -/

/-- Appending the letter x makes it the last character. -/
theorem append_x_getLast (s : String) : (s ++ "x").data.getLast? = some 'x' := by
  rw [String.data_append]
  exact List.getLast?_concat _

/-- A formatted ratio string always ends in the letter x, so it never
equals the sentinel. -/
theorem fmt2x_ne_na (q : ℚ) : fmt2x q ≠ "N/A" := by
  intro h
  have h2 : (fmt2x q).data.getLast? = ("N/A" : String).data.getLast? := by rw [h]
  have h3 : (fmt2x q).data.getLast? = some 'x' :=
    append_x_getLast (toString (round2int q / 100) ++ "." ++ pad2 (round2int q % 100))
  rw [h3] at h2
  simp at h2

/-- On numeric arguments with a nonzero baseline, format_ratio formats
the quotient to two decimals. -/
theorem format_ratioS_num (v b : ℚ) (hb : b ≠ 0) :
    format_ratioS (.num v) (.num b) = fmt2x (v / b) := by
  simp [format_ratioS, format_ratio, PyVal.truthy, hb]

/-- Looking up a key of a keyed map over a list of keys returns the
mapped value at the first occurrence of that key. -/
theorem lookup_map_self {β : Type} (F : String → β) :
    ∀ (l : List String) (qt : String), qt ∈ l →
      (l.map (fun t => (t, F t))).lookup qt = some (F qt) := by
  intro l
  induction l with
  | nil => intro qt h; cases h
  | cons a l ih =>
    intro qt h
    by_cases hqa : qt = a
    · subst hqa
      simp [List.lookup]
    · have h' : qt ∈ l := by
        rcases List.mem_cons.mp h with h | h
        · exact absurd h hqa
        · exact h
      have hb : (qt == a) = false := by simp [hqa]
      simpa [List.lookup, hb] using ih qt h'

/-- The fold inside minBy returns the accumulator or a list element, its
key is at most the accumulator key and at most every list key. -/
theorem minBy_foldl_spec {α : Type} (f : α → ℚ) :
    ∀ (xs : List α) (x : α),
      (xs.foldl (fun acc y => if f y < f acc then y else acc) x = x ∨
       xs.foldl (fun acc y => if f y < f acc then y else acc) x ∈ xs) ∧
      f (xs.foldl (fun acc y => if f y < f acc then y else acc) x) ≤ f x ∧
      ∀ z ∈ xs, f (xs.foldl (fun acc y => if f y < f acc then y else acc) x) ≤ f z := by
  intro xs
  induction xs with
  | nil => intro x; exact ⟨Or.inl rfl, le_refl _, by intro z hz; cases hz⟩
  | cons y ys ih =>
    intro x
    rw [List.foldl_cons]
    by_cases hyx : f y < f x
    · rw [if_pos hyx]
      rcases ih y with ⟨hmem, hle, hall⟩
      refine ⟨?_, ?_, ?_⟩
      · rcases hmem with h | h
        · exact Or.inr (by rw [h]; exact List.mem_cons_self _ _)
        · exact Or.inr (List.mem_cons_of_mem _ h)
      · exact le_trans hle (le_of_lt hyx)
      · intro z hz
        rcases List.mem_cons.mp hz with rfl | hz'
        · exact hle
        · exact hall z hz'
    · rw [if_neg hyx]
      rcases ih x with ⟨hmem, hle, hall⟩
      refine ⟨?_, ?_, ?_⟩
      · rcases hmem with h | h
        · exact Or.inl h
        · exact Or.inr (List.mem_cons_of_mem _ h)
      · exact hle
      · intro z hz
        rcases List.mem_cons.mp hz with rfl | hz'
        · exact le_trans hle (le_of_not_lt hyx)
        · exact hall z hz'

/-- minBy on a non-empty list returns an element whose key is minimal. -/
theorem minBy_spec {α : Type} (f : α → ℚ) (l : List α) (h : l ≠ []) :
    ∃ m, minBy f l = some m ∧ m ∈ l ∧ ∀ x ∈ l, f m ≤ f x := by
  match l with
  | [] => exact absurd rfl h
  | x :: xs =>
    rcases minBy_foldl_spec f xs x with ⟨hmem, hle, hall⟩
    refine ⟨xs.foldl (fun acc y => if f y < f acc then y else acc) x, rfl, ?_, ?_⟩
    · rcases hmem with h | h
      · rw [h]; exact List.mem_cons_self _ _
      · exact List.mem_cons_of_mem _ h
    · intro z hz
      rcases List.mem_cons.mp hz with rfl | hz'
      · exact hle
      · exact hall z hz'

/- ----------------------------------------------------------------------
   Claim C1. -/

/-- Claim C1, counterexample: with the numeric, nonzero, non-sentinel
baseline 5 and the sentinel value, format_ratio still returns "N/A",
although the claim allows "N/A" only for a zero, absent or sentinel
baseline. -/
theorem c1_value_sentinel_counterexample :
    format_ratio (.str "N/A") (.num 5) = some "N/A" ∧
    (PyVal.num 5).truthy = true ∧
    PyVal.num 5 ≠ PyVal.num 0 ∧
    PyVal.num 5 ≠ PyVal.str "N/A" := by
  refine ⟨rfl, by decide, by decide, by decide⟩

/-- Claim C1 (amended): for a baseline that is a number or the sentinel,
format_ratio returns "N/A" exactly when the baseline is zero or the
sentinel, or when the value itself is the sentinel; on numeric value and
nonzero numeric baseline it returns value/baseline rounded to 2 decimals
(with the trailing x of the source format string). -/
theorem c1_format_ratio_na_characterization (value baseline : PyVal)
    (hb : (∃ b : ℚ, baseline = .num b) ∨ baseline = .str "N/A") :
    (format_ratio value baseline = some "N/A" ↔
      baseline = .num 0 ∨ baseline = .str "N/A" ∨ value = .str "N/A") ∧
    (∀ v b : ℚ, value = .num v → baseline = .num b → b ≠ 0 →
      format_ratio value baseline = some (fmt2x (v / b))) := by
  constructor
  · rcases hb with ⟨b, rfl⟩ | rfl
    · cases value with
      | num v =>
        by_cases hb0 : b = 0
        · subst hb0
          simp [format_ratio, PyVal.truthy]
        · rw [format_ratio, if_neg (by simp [PyVal.truthy, hb0])]
          simp [hb0, fmt2x_ne_na]
      | str s =>
        by_cases hb0 : b = 0
        · subst hb0
          simp [format_ratio, PyVal.truthy]
        · by_cases hs : s = "N/A"
          · subst hs
            simp [format_ratio, hb0]
          · rw [format_ratio, if_neg (by simp [PyVal.truthy, hb0, hs])]
            simp [hb0, hs]
            exact fun v b1 h h2 => PyVal.noConfusion h
    · simp [format_ratio]
  · intro v b hv hb' hb0
    subst hv
    subst hb'
    rw [format_ratio, if_neg (by simp [PyVal.truthy, hb0])]

/-- Claim C1 witness: the characterization at value 3 and baseline 2. -/
theorem c1_format_ratio_na_characterization_witness :
    (format_ratio (.num 3) (.num 2) = some "N/A" ↔
      PyVal.num 2 = .num 0 ∨ PyVal.num 2 = .str "N/A" ∨ PyVal.num 3 = .str "N/A") ∧
    (∀ v b : ℚ, PyVal.num 3 = .num v → PyVal.num 2 = .num b → b ≠ 0 →
      format_ratio (.num 3) (.num 2) = some (fmt2x (v / b))) :=
  c1_format_ratio_na_characterization (.num 3) (.num 2) (Or.inl ⟨2, rfl⟩)

/- ----------------------------------------------------------------------
   Claim C6. -/

/-- Claim C6, counterexample: with the flag --records 0 provided and the
environment unset, the record count used is 1000000, not the provided 0;
likewise an empty --output falls back to the default file name. -/
theorem c6_falsy_flag_counterexample :
    resolveRecords (some 0) none = 1000000 ∧ (1000000 : ℤ) ≠ 0 ∧
    resolveOutput (some "") none "benchmark_results.json" = "benchmark_results.json" ∧
    "benchmark_results.json" ≠ "" := by
  refine ⟨rfl, by decide, rfl, by decide⟩

/-- Claim C6 (amended): the record count is the --records value when it
is provided and nonzero, otherwise the integer value of
BENCHMARK_RECORDS when set, otherwise 1000000; the output file is the
--output value when provided and non-empty, otherwise the output
environment variable when set, otherwise the default results
filename. -/
theorem c6_config_resolution (rf : Option ℤ) (re : Option ℤ)
    (fo : Option String) (eo : Option String) (d : String) :
    (∀ n, rf = some n → n ≠ 0 → resolveRecords rf re = n) ∧
    ((rf = none ∨ rf = some 0) → resolveRecords rf re = re.getD 1000000) ∧
    (∀ s, fo = some s → s ≠ "" → resolveOutput fo eo d = s) ∧
    ((fo = none ∨ fo = some "") → resolveOutput fo eo d = eo.getD d) := by
  refine ⟨?_, ?_, ?_, ?_⟩
  · intro n hn hn0
    subst hn
    simp [resolveRecords, hn0]
  · intro h
    rcases h with h | h <;> subst h <;> simp [resolveRecords]
  · intro s hs hs0
    subst hs
    simp [resolveOutput, hs0]
  · intro h
    rcases h with h | h <;> subst h <;> simp [resolveOutput]

/-- Claim C6 witness: a nonzero flag wins, an empty output flag falls
back to the default. -/
theorem c6_config_resolution_witness :
    resolveRecords (some 5000) none = 5000 ∧
    resolveOutput (some "out.json") none "benchmark_results.json" = "out.json" :=
  ⟨(c6_config_resolution (some 5000) none (some "out.json") none
      "benchmark_results.json").1 5000 rfl (by decide),
   (c6_config_resolution (some 5000) none (some "out.json") none
      "benchmark_results.json").2.2.1 "out.json" rfl (by decide)⟩

/- ----------------------------------------------------------------------
   Claim C8. -/

/-- Claim C8: compare_benchmarks returns 1 exactly when neither results
file loaded; otherwise it returns 0 and, when an output path is given,
writes the comparison document there. -/
theorem c8_exit_code_and_write (pg mysql : Option ResultsDoc) (outF : Option String) :
    ((compare_benchmarks pg mysql outF).code = 1 ↔ pg = none ∧ mysql = none) ∧
    (pg ≠ none ∨ mysql ≠ none →
      (compare_benchmarks pg mysql outF).code = 0 ∧
      ∀ f, outF = some f → ∃ cmp, (compare_benchmarks pg mysql outF).written = some (f, cmp)) := by
  constructor
  · cases pg <;> cases mysql <;> simp [compare_benchmarks]
  · intro h
    have hcond : (pg.isNone && mysql.isNone) = false := by
      rcases h with h | h <;> cases pg <;> cases mysql <;> simp_all
    constructor
    · simp [compare_benchmarks, hcond]
    · intro f hf
      subst hf
      refine ⟨⟨buildInsertData pg mysql, buildStorageData pg mysql,
        buildQueryData pg mysql, buildUpdateData pg mysql⟩, ?_⟩
      simp [compare_benchmarks, hcond]

/-- Claim C8 witness: with only the PostgreSQL file loaded and an output
path given, the exit code is 0 and the document is written. -/
theorem c8_exit_code_and_write_witness :
    (compare_benchmarks (some ⟨none, none, none, none⟩) none (some "cmp.json")).code = 0 ∧
    ∃ cmp, (compare_benchmarks (some ⟨none, none, none, none⟩) none
      (some "cmp.json")).written = some ("cmp.json", cmp) := by
  have h := (c8_exit_code_and_write (some ⟨none, none, none, none⟩) none
    (some "cmp.json")).2 (Or.inl (by simp))
  exact ⟨h.1, h.2 "cmp.json" rfl⟩

/- ----------------------------------------------------------------------
   Claim C3. -/

/-- Claim C3: after a successful connection, an exception in any
benchmarking step yields exit code 1 with the error printed; cleanup is
attempted in every run (failing or not); a cleanup exception is logged
and the exit code does not depend on the cleanup outcome. -/
theorem c3_cleanup_and_exit_code :
    (∀ o1 o2 o3 o4 o5 o6 cl m,
      (runBodyTrace (bodySteps.zip [o1, o2, o3, o4, o5, o6])).2 = .exn m →
        (runnerMain .ok o1 o2 o3 o4 o5 o6 cl).exitCode = 1 ∧
        Ev.errorPrinted m ∈ (runnerMain .ok o1 o2 o3 o4 o5 o6 cl).trace ∧
        (runnerMain .ok o1 o2 o3 o4 o5 o6 cl).cleanupAttempted = true ∧
        (runnerMain .ok o1 o2 o3 o4 o5 o6 cl).cleanupErrorLogged = cleanupLog cl) ∧
    (∀ o1 o2 o3 o4 o5 o6 cl,
      (runnerMain .ok o1 o2 o3 o4 o5 o6 cl).cleanupAttempted = true) ∧
    (∀ o1 o2 o3 o4 o5 o6 cl cl',
      (runnerMain .ok o1 o2 o3 o4 o5 o6 cl).exitCode =
      (runnerMain .ok o1 o2 o3 o4 o5 o6 cl').exitCode) := by
  refine ⟨?_, ?_, ?_⟩
  · intro o1 o2 o3 o4 o5 o6 cl m h
    rcases hR : runBodyTrace (bodySteps.zip [o1, o2, o3, o4, o5, o6]) with ⟨tr, res⟩
    rw [hR] at h
    cases res with
    | ok => simp at h
    | exn m' =>
      have hm : m' = m := by simpa using h
      subst hm
      simp [runnerMain, hR]
  · intro o1 o2 o3 o4 o5 o6 cl
    rcases hR : runBodyTrace (bodySteps.zip [o1, o2, o3, o4, o5, o6]) with ⟨tr, res⟩
    cases res <;> simp [runnerMain, hR]
  · intro o1 o2 o3 o4 o5 o6 cl cl'
    rcases hR : runBodyTrace (bodySteps.zip [o1, o2, o3, o4, o5, o6]) with ⟨tr, res⟩
    cases res <;> simp [runnerMain, hR]

/-- Claim C3 witness: the third step (benchmark_inserts) raises and
cleanup itself raises; exit code 1, the error is printed, cleanup was
attempted with its own error logged, the code matches a run with a clean
cleanup. -/
theorem c3_cleanup_and_exit_code_witness :
    (runnerMain .ok .ok .ok (.exn "boom") .ok .ok .ok (.exn "cleanup-err")).exitCode = 1 ∧
    Ev.errorPrinted "boom" ∈
      (runnerMain .ok .ok .ok (.exn "boom") .ok .ok .ok (.exn "cleanup-err")).trace ∧
    (runnerMain .ok .ok .ok (.exn "boom") .ok .ok .ok (.exn "cleanup-err")).cleanupAttempted
      = true ∧
    (runnerMain .ok .ok .ok (.exn "boom") .ok .ok .ok (.exn "cleanup-err")).cleanupErrorLogged
      = cleanupLog (.exn "cleanup-err") :=
  c3_cleanup_and_exit_code.1 .ok .ok (.exn "boom") .ok .ok .ok (.exn "cleanup-err") "boom" rfl

/- ----------------------------------------------------------------------
   Claim C7. -/

/-- Claim C7: in a successful run the trace is exactly connect, setup,
the four metric recordings and the report write in this order, and the
report write comes strictly after every metric recording. -/
theorem c7_linear_step_order (o1 o2 o3 o4 o5 o6 cl : PyRes)
    (h : (runnerMain .ok o1 o2 o3 o4 o5 o6 cl).exitCode = 0) :
    (runnerMain .ok o1 o2 o3 o4 o5 o6 cl).trace =
      [.connected, .tablesSetup, .insertRecorded, .storageRecorded, .queriesRecorded,
       .updatesRecorded, .reportWritten] ∧
    ∀ ev ∈ [Ev.insertRecorded, Ev.storageRecorded, Ev.queriesRecorded, Ev.updatesRecorded],
      List.indexOf ev (runnerMain .ok o1 o2 o3 o4 o5 o6 cl).trace <
      List.indexOf Ev.reportWritten (runnerMain .ok o1 o2 o3 o4 o5 o6 cl).trace := by
  cases o1 <;> cases o2 <;> cases o3 <;> cases o4 <;> cases o5 <;> cases o6 <;>
    simp_all [runnerMain, runBodyTrace, bodySteps]

/-- Claim C7 witness: the all-successful run. -/
theorem c7_linear_step_order_witness :
    (runnerMain .ok .ok .ok .ok .ok .ok .ok .ok).exitCode = 0 ∧
    (runnerMain .ok .ok .ok .ok .ok .ok .ok .ok).trace =
      [.connected, .tablesSetup, .insertRecorded, .storageRecorded, .queriesRecorded,
       .updatesRecorded, .reportWritten] :=
  ⟨rfl, (c7_linear_step_order .ok .ok .ok .ok .ok .ok .ok rfl).1⟩

/- ----------------------------------------------------------------------
   Claim C4. -/

/-- Claim C4: over any non-empty collected data the fastest-INSERT,
smallest-storage and fastest-UPDATE summaries each name an entry whose
metric is minimal over all entries of that category. -/
theorem c4_min_selection :
    (∀ l : List (String × InsertEntry), l ≠ [] →
      ∃ m, fastest_insert l = some m ∧ m ∈ l ∧ ∀ x ∈ l, m.2.time ≤ x.2.time) ∧
    (∀ l : List (String × StorageEntry), l ≠ [] →
      ∃ m, smallest_storage l = some m ∧ m ∈ l ∧ ∀ x ∈ l, m.2.size_mb ≤ x.2.size_mb) ∧
    (∀ l : List (String × UpdateEntry), l ≠ [] →
      ∃ m, fastest_update l = some m ∧ m ∈ l ∧ ∀ x ∈ l, m.2.time_ms ≤ x.2.time_ms) :=
  ⟨fun l h => minBy_spec _ l h, fun l h => minBy_spec _ l h, fun l h => minBy_spec _ l h⟩

/-- Claim C4 witness: the insert selection on a two-entry category. -/
theorem c4_min_selection_witness :
    ∃ m, fastest_insert [("mysql_json", ⟨3, 5, none⟩), ("postgresql_jsonb", ⟨2, 9, none⟩)]
        = some m ∧
      m ∈ [("mysql_json", (⟨3, 5, none⟩ : InsertEntry)), ("postgresql_jsonb", ⟨2, 9, none⟩)] ∧
      ∀ x ∈ [("mysql_json", (⟨3, 5, none⟩ : InsertEntry)), ("postgresql_jsonb", ⟨2, 9, none⟩)],
        m.2.time ≤ x.2.time :=
  c4_min_selection.1 [("mysql_json", ⟨3, 5, none⟩), ("postgresql_jsonb", ⟨2, 9, none⟩)]
    (by decide)

/- ----------------------------------------------------------------------
   Claim C5. -/

/-- Claim C5: every report has exactly the five top-level sections with
the per-section fields the runners fill in, and the report is written
exactly once, to the chosen output file, with the final document. -/
theorem c5_report_shape_and_single_write (m : PgMeas) (m2 : MyMeas) (outP outM : String) :
    (pgRun m outP).1.keys = ["test_info", "insert_performance", "storage_sizes",
      "query_performance", "update_performance"] ∧
    ((pgRun m outP).1.getD "test_info" .null).keys =
      ["timestamp", "postgresql_version", "server_info"] ∧
    ((pgRun m outP).1.getD "insert_performance" .null).keys =
      ["record_count", "json_time_seconds", "jsonb_time_seconds",
       "json_records_per_second", "jsonb_records_per_second", "performance_ratio"] ∧
    ((pgRun m outP).1.getD "storage_sizes" .null).keys = ["json", "jsonb", "size_ratio"] ∧
    ((pgRun m outP).1.getD "query_performance" .null).keys = query_types ∧
    ((pgRun m outP).1.getD "update_performance" .null).keys =
      ["records_updated", "json_time_ms", "jsonb_time_ms", "performance_ratio"] ∧
    (pgRun m outP).2 = [(outP, (pgRun m outP).1)] ∧
    (myRun m2 outM).1.keys = ["test_info", "insert_performance", "storage_sizes",
      "query_performance", "update_performance"] ∧
    ((myRun m2 outM).1.getD "test_info" .null).keys =
      ["timestamp", "mysql_version", "server_info"] ∧
    ((myRun m2 outM).1.getD "query_performance" .null).keys = query_types ∧
    (myRun m2 outM).2 = [(outM, (myRun m2 outM).1)] :=
  ⟨rfl, rfl, rfl, rfl, rfl, rfl, rfl, rfl, rfl, rfl, rfl⟩

/- ----------------------------------------------------------------------
   Claim C9. -/

/-- The batched loop enumerates exactly the contiguous range, provided
the fuel covers the number of batches. -/
theorem insertBatches_eq_range' :
    ∀ (fuel s stop b : ℕ), 1 ≤ b → stop - s ≤ fuel * b →
      insertBatches fuel s stop b = List.range' s (stop - s) := by
  intro fuel
  induction fuel with
  | zero =>
    intro s stop b hb h
    have h0 : stop - s = 0 := by simpa using h
    rw [h0]
    rfl
  | succ fuel ih =>
    intro s stop b hb h
    rw [insertBatches]
    by_cases hs : s < stop
    · rw [if_pos hs]
      by_cases hsb : s + b ≤ stop
      · have hmin : min (s + b) stop - s = b := by omega
        have hrec : insertBatches fuel (s + b) stop b = List.range' (s + b) (stop - (s + b)) := by
          apply ih _ _ _ hb
          have hx : stop - s ≤ fuel * b + b := by
            calc stop - s ≤ (fuel + 1) * b := h
            _ = fuel * b + b := by ring
          omega
        rw [hmin, hrec]
        have happ := List.range'_append s b (stop - (s + b)) 1
        rw [one_mul] at happ
        rw [happ]
        congr 1
        omega
      · have hmin : min (s + b) stop - s = stop - s := by omega
        have hrec : insertBatches fuel (s + b) stop b = List.range' (s + b) (stop - (s + b)) := by
          apply ih _ _ _ hb
          have : stop - (s + b) = 0 := by omega
          omega
        have h0 : stop - (s + b) = 0 := by omega
        rw [hmin, hrec, h0, List.range'_zero, List.append_nil]
    · rw [if_neg hs]
      have h0 : stop - s = 0 := by omega
      rw [h0]
      rfl

/-- Claim C9: for any record count at least 1, the batched insert loop
generates every index of 1..record_count exactly once and no others. -/
theorem c9_batch_partition (n i : ℕ) (h : 1 ≤ n) :
    (mysql_insert_indices n).count i = if 1 ≤ i ∧ i ≤ n then 1 else 0 := by
  have hr : mysql_insert_indices n = List.range' 1 n := by
    have hle : (n + 1) - 1 ≤ n * 10000 := by
      have : n ≤ n * 10000 := Nat.le_mul_of_pos_right n (by omega)
      omega
    have hmain := insertBatches_eq_range' n 1 (n + 1) 10000 (by omega) hle
    simpa [mysql_insert_indices] using hmain
  rw [hr]
  by_cases hi : 1 ≤ i ∧ i ≤ n
  · rw [if_pos hi]
    exact List.count_eq_one_of_mem (List.nodup_range' 1 n)
      (List.mem_range'_1.mpr ⟨hi.1, by omega⟩)
  · rw [if_neg hi]
    apply List.count_eq_zero_of_not_mem
    intro hm
    exact hi (by have := List.mem_range'_1.mp hm; omega)

/-- Claim C9 witness: record count 3 yields index 2 exactly once. -/
theorem c9_batch_partition_witness :
    1 ≤ 3 ∧ (mysql_insert_indices 3).count 2 = 1 := by
  refine ⟨by decide, ?_⟩
  have h := c9_batch_partition 3 2 (by decide)
  simpa using h

/- ----------------------------------------------------------------------
   Claim C10. -/

/-- One loop iteration never changes the binding of a key that is
already set. -/
theorem processLine_keeps (env : Env) (line : String) (k : String) (v : String)
    (h : env.lookup k = some v) : (processLine env line).lookup k = some v := by
  rw [processLine]
  by_cases hq : lineQualifies line
  · rw [if_pos hq]
    by_cases hk : (env.lookup (lineKeyVal line).1).isSome
    · rw [if_pos hk]
      exact h
    · rw [if_neg hk]
      have hne : (k == (lineKeyVal line).1) = false := by
        rcases eq_or_ne k (lineKeyVal line).1 with rfl | hne
        · exact absurd (by simp [h]) hk
        · simp [hne]
      simpa [List.lookup, hne] using h
  · rw [if_neg hq]
    exact h

/-- The whole loop never changes the binding of a key that is already
set. -/
theorem foldl_processLine_keeps :
    ∀ (lines : List String) (env : Env) (k v : String),
      env.lookup k = some v → (lines.foldl processLine env).lookup k = some v := by
  intro lines
  induction lines with
  | nil => intro env k v h; exact h
  | cons l ls ih =>
    intro env k v h
    rw [List.foldl_cons]
    exact ih (processLine env l) k v (processLine_keeps env l k v h)

/-- A key that appears after the loop but not before comes from a
qualifying line whose key it is. -/
theorem foldl_processLine_new_key :
    ∀ (lines : List String) (env : Env) (k : String),
      env.lookup k = none →
      (lines.foldl processLine env).lookup k ≠ none →
      ∃ line ∈ lines, lineQualifies line = true ∧ k = (lineKeyVal line).1 := by
  intro lines
  induction lines with
  | nil => intro env k h0 h1; exact absurd h0 h1
  | cons l ls ih =>
    intro env k h0 h1
    rw [List.foldl_cons] at h1
    by_cases hk : (processLine env l).lookup k = none
    · rcases ih (processLine env l) k hk h1 with ⟨line, hmem, hq, hkey⟩
      exact ⟨line, List.mem_cons_of_mem _ hmem, hq, hkey⟩
    · by_cases hq : lineQualifies l
      · by_cases hset : (env.lookup (lineKeyVal l).1).isSome
        · rw [processLine, if_pos hq, if_pos hset] at hk
          exact absurd h0 hk
        · rw [processLine, if_pos hq, if_neg hset] at hk
          by_cases hkk : k = (lineKeyVal l).1
          · exact ⟨l, List.mem_cons_self _ _, hq, hkk⟩
          · have hne : (k == (lineKeyVal l).1) = false := by simp [hkk]
            simp [List.lookup, hne, h0] at hk
      · rw [processLine, if_neg hq] at hk
        exact absurd h0 hk

/-- Claim C10: load_env_file never alters a variable that was already
set; every key it adds is the key of some qualifying line (non-blank,
not a comment, containing a separator); with the path /dev/null or a
missing file the environment is left entirely unchanged. -/
theorem c10_load_env_frame (path : String) (file : Option (List String)) (env : Env) :
    (∀ k v, env.lookup k = some v → (load_env_file path file env).lookup k = some v) ∧
    (∀ k, env.lookup k = none → (load_env_file path file env).lookup k ≠ none →
      ∃ line ∈ file.getD [], lineQualifies line = true ∧ k = (lineKeyVal line).1) ∧
    (path = "/dev/null" → load_env_file path file env = env) ∧
    (file = none → load_env_file path file env = env) := by
  refine ⟨?_, ?_, ?_, ?_⟩
  · intro k v h
    rw [load_env_file.eq_def]
    by_cases hp : path = "/dev/null"
    · rw [if_pos hp]; exact h
    · rw [if_neg hp]
      cases file with
      | none => exact h
      | some lines => exact foldl_processLine_keeps lines env k v h
  · intro k h0 h1
    rw [load_env_file.eq_def] at h1
    by_cases hp : path = "/dev/null"
    · rw [if_pos hp] at h1
      exact absurd h0 h1
    · rw [if_neg hp] at h1
      cases file with
      | none => exact absurd h0 h1
      | some lines =>
        simpa using foldl_processLine_new_key lines env k h0 h1
  · intro hp
    rw [load_env_file.eq_def, if_pos hp]
  · intro hf
    subst hf
    rw [load_env_file.eq_def]
    by_cases hp : path = "/dev/null"
    · rw [if_pos hp]
    · rw [if_neg hp]

/-- Claim C10 witness: a file that redefines FOO does not override the
preexisting binding of FOO. -/
theorem c10_load_env_frame_witness :
    ([("FOO", "keep"), ("BAR", "2")] : Env).lookup "FOO" = some "keep" ∧
    (load_env_file ".env" (some ["FOO=new", "# comment", "", "BAZ=3"])
      [("FOO", "keep"), ("BAR", "2")]).lookup "FOO" = some "keep" :=
  ⟨by decide,
   (c10_load_env_frame ".env" (some ["FOO=new", "# comment", "", "BAZ=3"])
      [("FOO", "keep"), ("BAR", "2")]).1 "FOO" "keep" (by decide)⟩

/- ----------------------------------------------------------------------
   Claim C2. -/

/-- Claim C2, counterexample: in the emitted comparison document the
MySQL insert_performance entry carries no ratio key at all, so it does
not carry the baseline ratio string. -/
theorem c2_mysql_entry_no_ratio_counterexample :
    (buildInsertData
        (some (mkPgDoc 10 3 3 3 3 3 3 (fun _ => 3) (fun _ => 3) 3 3))
        (some (mkMyDoc 10 2 7 2 (fun _ => 2) 2))).lookup "mysql_json"
      = some ⟨2, 7, none⟩ ∧
    (⟨2, 7, none⟩ : InsertEntry).ratio ≠ some "1.00x" := by
  exact ⟨rfl, by simp⟩

/-- Claim C2 (amended): on two fully populated documents with positive
MySQL baselines, the written comparison document carries, for every
PostgreSQL metric in every category, the ratio of that metric to the
corresponding MySQL metric formatted to 2 decimals; the MySQL
query_performance entries carry the literal baseline ratio 1.00x, while
the MySQL insert, storage and update entries carry no ratio key. -/
theorem c2_comparison_document_ratios
    (rc pjt pbt pjr pbr psj psb puj pub : ℚ) (fq gq : String → ℚ)
    (mrc mjt mjr msj mu : ℚ) (hq : String → ℚ)
    (hmjt : 0 < mjt) (hmsj : 0 < msj) (hmu : 0 < mu)
    (hhq : ∀ qt ∈ query_types, 0 < hq qt) (f : String) :
    (compare_benchmarks
      (some (mkPgDoc rc pjt pbt pjr pbr psj psb fq gq puj pub))
      (some (mkMyDoc mrc mjt mjr msj hq mu)) (some f)).written =
    some (f,
      ⟨[("mysql_json", ⟨mjt, mjr, none⟩),
        ("postgresql_json", ⟨pjt, pjr, some (fmt2x (pjt / mjt))⟩),
        ("postgresql_jsonb", ⟨pbt, pbr, some (fmt2x (pbt / mjt))⟩)],
       [("mysql_json", ⟨msj, none⟩),
        ("postgresql_json", ⟨psj, some (fmt2x (psj / msj))⟩),
        ("postgresql_jsonb", ⟨psb, some (fmt2x (psb / msj))⟩)],
       query_types.map (fun qt =>
         (qt, [("postgresql_json", ⟨.num (fq qt), fmt2x (fq qt / hq qt)⟩),
               ("postgresql_jsonb", ⟨.num (gq qt), fmt2x (gq qt / hq qt)⟩),
               ("mysql_json", ⟨.num (hq qt), "1.00x"⟩)])),
       [("mysql_json", ⟨mu, none⟩),
        ("postgresql_json", ⟨puj, some (fmt2x (puj / mu))⟩),
        ("postgresql_jsonb", ⟨pub, some (fmt2x (pub / mu))⟩)]⟩) := by
  have hIns : buildInsertData
      (some (mkPgDoc rc pjt pbt pjr pbr psj psb fq gq puj pub))
      (some (mkMyDoc mrc mjt mjr msj hq mu)) =
      [("mysql_json", ⟨mjt, mjr, none⟩),
       ("postgresql_json", ⟨pjt, pjr, some (fmt2x (pjt / mjt))⟩),
       ("postgresql_jsonb", ⟨pbt, pbr, some (fmt2x (pbt / mjt))⟩)] := by
    simp only [buildInsertData, mkPgDoc, mkMyDoc, mysql_insert_time, mysql_insert_rps,
      Option.getD_some]
    rw [format_ratioS_num pjt mjt hmjt.ne', format_ratioS_num pbt mjt hmjt.ne']
    rfl
  have hSto : buildStorageData
      (some (mkPgDoc rc pjt pbt pjr pbr psj psb fq gq puj pub))
      (some (mkMyDoc mrc mjt mjr msj hq mu)) =
      [("mysql_json", ⟨msj, none⟩),
       ("postgresql_json", ⟨psj, some (fmt2x (psj / msj))⟩),
       ("postgresql_jsonb", ⟨psb, some (fmt2x (psb / msj))⟩)] := by
    simp only [buildStorageData, mkPgDoc, mkMyDoc, mysql_storage_mb, Option.getD_some]
    rw [format_ratioS_num psj msj hmsj.ne', format_ratioS_num psb msj hmsj.ne']
    rfl
  have hUpd : buildUpdateData
      (some (mkPgDoc rc pjt pbt pjr pbr psj psb fq gq puj pub))
      (some (mkMyDoc mrc mjt mjr msj hq mu)) =
      [("mysql_json", ⟨mu, none⟩),
       ("postgresql_json", ⟨puj, some (fmt2x (puj / mu))⟩),
       ("postgresql_jsonb", ⟨pub, some (fmt2x (pub / mu))⟩)] := by
    simp only [buildUpdateData, mkPgDoc, mkMyDoc, mysql_update_ms, Option.getD_some]
    rw [format_ratioS_num puj mu hmu.ne', format_ratioS_num pub mu hmu.ne']
    rfl
  have hQ : buildQueryData
      (some (mkPgDoc rc pjt pbt pjr pbr psj psb fq gq puj pub))
      (some (mkMyDoc mrc mjt mjr msj hq mu)) =
      query_types.map (fun qt =>
        (qt, [("postgresql_json", ⟨.num (fq qt), fmt2x (fq qt / hq qt)⟩),
              ("postgresql_jsonb", ⟨.num (gq qt), fmt2x (gq qt / hq qt)⟩),
              ("mysql_json", ⟨.num (hq qt), "1.00x"⟩)])) := by
    refine List.map_congr_left ?_
    intro qt hqt
    have hbase : mysql_query_baseline (some (mkMyDoc mrc mjt mjr msj hq mu)) qt = hq qt := by
      simp only [mysql_query_baseline, mkMyDoc]
      rw [lookup_map_self (fun t => (⟨some (hq t), none⟩ : CmpQueryEntry)) query_types qt hqt]
      rfl
    have hrow : buildQueryRow
        (some (mkPgDoc rc pjt pbt pjr pbr psj psb fq gq puj pub))
        (some (mkMyDoc mrc mjt mjr msj hq mu)) qt =
        [("postgresql_json", ⟨.num (fq qt), fmt2x (fq qt / hq qt)⟩),
         ("postgresql_jsonb", ⟨.num (gq qt), fmt2x (gq qt / hq qt)⟩),
         ("mysql_json", ⟨.num (hq qt), "1.00x"⟩)] := by
      simp only [buildQueryRow, mkPgDoc, mkMyDoc]
      rw [lookup_map_self (fun t => (⟨some (fq t), some (gq t)⟩ : CmpQueryEntry))
          query_types qt hqt,
        lookup_map_self (fun t => (⟨some (hq t), none⟩ : CmpQueryEntry)) query_types qt hqt]
      simp only [Option.getD_some, getNA]
      simp only [mkMyDoc] at hbase
      rw [hbase]
      rw [format_ratioS_num (fq qt) (hq qt) (hhq qt hqt).ne',
        format_ratioS_num (gq qt) (hq qt) (hhq qt hqt).ne']
      rfl
    rw [hrow]
  have hred : (compare_benchmarks
      (some (mkPgDoc rc pjt pbt pjr pbr psj psb fq gq puj pub))
      (some (mkMyDoc mrc mjt mjr msj hq mu)) (some f)).written =
      some (f, ⟨buildInsertData
          (some (mkPgDoc rc pjt pbt pjr pbr psj psb fq gq puj pub))
          (some (mkMyDoc mrc mjt mjr msj hq mu)),
        buildStorageData
          (some (mkPgDoc rc pjt pbt pjr pbr psj psb fq gq puj pub))
          (some (mkMyDoc mrc mjt mjr msj hq mu)),
        buildQueryData
          (some (mkPgDoc rc pjt pbt pjr pbr psj psb fq gq puj pub))
          (some (mkMyDoc mrc mjt mjr msj hq mu)),
        buildUpdateData
          (some (mkPgDoc rc pjt pbt pjr pbr psj psb fq gq puj pub))
          (some (mkMyDoc mrc mjt mjr msj hq mu))⟩) := rfl
  rw [hred, hIns, hSto, hQ, hUpd]

/-- Claim C2 witness: PostgreSQL metrics 3 against MySQL baselines 2
yield the ratio string 1.50x everywhere, the MySQL query entries the
literal 1.00x, and the other MySQL entries no ratio key. -/
theorem c2_comparison_document_ratios_witness :
    (compare_benchmarks
      (some (mkPgDoc 10 3 3 3 3 3 3 (fun _ => 3) (fun _ => 3) 3 3))
      (some (mkMyDoc 10 2 7 2 (fun _ => 2) 2))
      (some "comparison_results.json")).written =
    some ("comparison_results.json",
      ⟨[("mysql_json", ⟨2, 7, none⟩),
        ("postgresql_json", ⟨3, 3, some "1.50x"⟩),
        ("postgresql_jsonb", ⟨3, 3, some "1.50x"⟩)],
       [("mysql_json", ⟨2, none⟩),
        ("postgresql_json", ⟨3, some "1.50x"⟩),
        ("postgresql_jsonb", ⟨3, some "1.50x"⟩)],
       query_types.map (fun qt =>
         (qt, [("postgresql_json", ⟨.num 3, "1.50x"⟩),
               ("postgresql_jsonb", ⟨.num 3, "1.50x"⟩),
               ("mysql_json", ⟨.num 2, "1.00x"⟩)])),
       [("mysql_json", ⟨2, none⟩),
        ("postgresql_json", ⟨3, some "1.50x"⟩),
        ("postgresql_jsonb", ⟨3, some "1.50x"⟩)]⟩) := by
  have h150 : round2int ((3 : ℚ) / 2) = 150 := by
    rw [round2int]
    norm_num [round_eq]
  have hr : fmt2x ((3 : ℚ) / 2) = "1.50x" := by
    unfold fmt2x
    rw [h150]
    decide
  have h := c2_comparison_document_ratios 10 3 3 3 3 3 3 3 3 (fun _ => 3) (fun _ => 3)
    10 2 7 2 2 (fun _ => 2) (by norm_num) (by norm_num) (by norm_num)
    (fun qt _ => by norm_num) "comparison_results.json"
  simp only [hr] at h
  exact h
